import Mathlib

/-!
Verification of the physics-and-replay core of the droplet simulator
(src/script.js): the analytic wave field, droplet integration and
surface-collision logic, the bounded history buffer, and the live/replay
state machine.  Rendering-only machinery (meshes, materials, DOM nodes)
is outside the core and is omitted from the embedding; where a core
function touches it, the doc comment says what was dropped.
-/

/-- Three-component vector, modelling THREE.Vector3 as the core uses it
(plain x, y, z components). -/
structure Vec3 (α : Type) where
  x : α
  y : α
  z : α
deriving DecidableEq

/-- State of the Droplet3D class (script.js 4–18) as the physics sees it:
position, velocity, mass, radius, the isDead flag and lastBounceTime.
The mesh and scene handles are rendering-only and omitted. -/
structure Droplet3D (α : Type) where
  position : Vec3 α
  velocity : Vec3 α
  mass : α
  radius : α
  isDead : Bool
  lastBounceTime : α
deriving DecidableEq

variable {α : Type} [LinearOrderedField α]

/-- Droplet3D.handleSurfaceCollision (script.js 69–107).  With relative
vertical velocity velocity.y - surfaceVelY negative (moving down relative
to the surface): bounce when the impact speed is below the threshold 25
and the surface is not sharply retreating (surfaceVelY > -2), setting
velocity.y to |velocity.y| * 0.8 plus the kick max 0 (surfaceVelY * 0.5)
and snapping position.y to surfaceY + radius; otherwise mark the droplet
dead.  A non-negative relative velocity is no impact and changes
nothing.  The time argument is accepted but unused, as in the source. -/
def Droplet3D.handleSurfaceCollision (d : Droplet3D α) (surfaceY surfaceVelY time : α) :
    Droplet3D α :=
  let relativeVelY := d.velocity.y - surfaceVelY
  if relativeVelY < 0 then
    let impactSpeed := |relativeVelY|
    let bounceThreshold : α := 25
    if impactSpeed < bounceThreshold ∧ surfaceVelY > -2 then
      let dampedY := |d.velocity.y| * 0.8
      let kickedY := dampedY + max 0 (surfaceVelY * 0.5)
      { d with velocity := { d.velocity with y := kickedY },
               position := { d.position with y := surfaceY + d.radius } }
    else
      { d with isDead := true }
  else d

/-- C4: for every surface collision moving down relative to the surface
(velocity.y - sVy < 0) with impact speed |velocity.y - sVy| below 25 and
sVy > -2, the droplet bounces: its new vertical velocity is exactly
|old velocity.y| * 0.8 + max 0 (sVy * 0.5) and its position.y is snapped
to surfaceY + radius. -/
theorem bounce_formula (d : Droplet3D ℚ) (sY sVy t : ℚ)
    (hrel : d.velocity.y - sVy < 0)
    (himp : |d.velocity.y - sVy| < 25)
    (hsvy : sVy > -2) :
    (d.handleSurfaceCollision sY sVy t).velocity.y
        = |d.velocity.y| * 0.8 + max 0 (sVy * 0.5)
      ∧ (d.handleSurfaceCollision sY sVy t).position.y = sY + d.radius := by
  simp only [Droplet3D.handleSurfaceCollision]
  rw [if_pos hrel, if_pos (And.intro himp hsvy)]
  exact ⟨rfl, rfl⟩

/-- Concrete droplet arriving with vertical velocity -10, for the C4
witness. -/
def bounceWitnessDroplet : Droplet3D ℚ :=
  { position := ⟨0, 1, 0⟩, velocity := ⟨0, -10, 0⟩, mass := 5, radius := 0.8,
    isDead := false, lastBounceTime := 0 }

/-- Witness for C4: incoming velocity.y = -10 over a surface at height 0
moving up at sVy = 3 bounces to velocity.y = 9.5 and rests at radius
height 0.8. -/
theorem bounce_formula_witness :
    (bounceWitnessDroplet.handleSurfaceCollision 0 3 0).velocity.y = 9.5
      ∧ (bounceWitnessDroplet.handleSurfaceCollision 0 3 0).position.y = 0.8 := by
  have h := bounce_formula bounceWitnessDroplet 0 3 0 (by norm_num [bounceWitnessDroplet])
    (by norm_num [bounceWitnessDroplet]) (by norm_num)
  exact ⟨h.1.trans (by norm_num [bounceWitnessDroplet]), h.2.trans (by norm_num [bounceWitnessDroplet])⟩

/-- C5: every downward-relative surface collision whose impact speed is at
least 25, or whose surface velocity is at most -2, kills the droplet and
leaves its velocity untouched. -/
theorem splash_kills (d : Droplet3D ℚ) (sY sVy t : ℚ)
    (hrel : d.velocity.y - sVy < 0)
    (h : 25 ≤ |d.velocity.y - sVy| ∨ sVy ≤ -2) :
    (d.handleSurfaceCollision sY sVy t).isDead = true
      ∧ (d.handleSurfaceCollision sY sVy t).velocity = d.velocity := by
  have hneg : ¬(|d.velocity.y - sVy| < 25 ∧ sVy > -2) := by
    rintro ⟨h1, h2⟩
    rcases h with h | h
    · exact absurd h1 (not_lt.mpr h)
    · exact absurd h2 (not_lt.mpr h)
  simp only [Droplet3D.handleSurfaceCollision]
  rw [if_pos hrel, if_neg hneg]
  exact ⟨rfl, rfl⟩

/-- Concrete droplet hitting the surface at impact speed 30, for the C5
witness. -/
def splashWitnessDroplet : Droplet3D ℚ :=
  { position := ⟨0, 1, 0⟩, velocity := ⟨0, -27, 0⟩, mass := 5, radius := 0.8,
    isDead := false, lastBounceTime := 0 }

/-- Witness for C5: impact speed 30 (velocity.y = -27 against sVy = 3, an
upward-moving surface) still kills the droplet and leaves its velocity
unchanged. -/
theorem splash_kills_witness :
    (splashWitnessDroplet.handleSurfaceCollision 0 3 0).isDead = true
      ∧ (splashWitnessDroplet.handleSurfaceCollision 0 3 0).velocity
        = splashWitnessDroplet.velocity :=
  splash_kills splashWitnessDroplet 0 3 0 (by norm_num [splashWitnessDroplet])
    (Or.inl (by norm_num [splashWitnessDroplet]))

/-- C9: after the bounce branch the vertical velocity is non-negative (a
bounced droplet never leaves the collision moving downward) and the
droplet rests exactly on the surface: position.y - radius = surfaceY. -/
theorem bounce_nonneg_no_penetration (d : Droplet3D ℚ) (sY sVy t : ℚ)
    (hrel : d.velocity.y - sVy < 0)
    (himp : |d.velocity.y - sVy| < 25)
    (hsvy : sVy > -2) :
    0 ≤ (d.handleSurfaceCollision sY sVy t).velocity.y
      ∧ (d.handleSurfaceCollision sY sVy t).position.y - d.radius = sY := by
  simp only [Droplet3D.handleSurfaceCollision]
  rw [if_pos hrel, if_pos (And.intro himp hsvy)]
  constructor
  · show (0 : ℚ) ≤ |d.velocity.y| * 0.8 + max 0 (sVy * 0.5)
    exact add_nonneg (mul_nonneg (abs_nonneg _) (by norm_num)) (le_max_left _ _)
  · show sY + d.radius - d.radius = sY
    ring

/-- Concrete slow droplet over a gently rising surface, for the C9
witness. -/
def softBounceDroplet : Droplet3D ℚ :=
  { position := ⟨0, 3, 0⟩, velocity := ⟨0, -4, 0⟩, mass := 5, radius := 0.8,
    isDead := false, lastBounceTime := 0 }

/-- Witness for C9 at velocity.y = -4, surface height 2, sVy = 1. -/
theorem bounce_nonneg_no_penetration_witness :
    0 ≤ (softBounceDroplet.handleSurfaceCollision 2 1 0).velocity.y
      ∧ (softBounceDroplet.handleSurfaceCollision 2 1 0).position.y
          - softBounceDroplet.radius = 2 :=
  bounce_nonneg_no_penetration softBounceDroplet 2 1 0 (by norm_num [softBounceDroplet])
    (by norm_num [softBounceDroplet]) (by norm_num)

/-- SimulatorAdvanced.getWaveHeight (script.js 271–277): Faraday standing
wave approximation amp * cos(k x) * cos(k z) * cos(omega t) with wave
number k = 0.2 and omega = freq * 0.1.  freq and amp are the simulator
fields read by the method, passed here as arguments. -/
noncomputable def getWaveHeight (freq amp x z t : ℝ) : ℝ :=
  amp * Real.cos (0.2 * x) * Real.cos (0.2 * z) * Real.cos (freq * 0.1 * t)

/-- SimulatorAdvanced.getSurfaceVelY (script.js 279–285): the surface
vertical velocity -amp * omega * cos(k x) * cos(k z) * sin(omega t), with
the same k = 0.2 and omega = freq * 0.1 as getWaveHeight. -/
noncomputable def getSurfaceVelY (freq amp x z t : ℝ) : ℝ :=
  -amp * (freq * 0.1) * Real.cos (0.2 * x) * Real.cos (0.2 * z) *
    Real.sin (freq * 0.1 * t)

/-- C7: for every frequency, amplitude and point (x, z, t), getSurfaceVelY
is exactly the time derivative of getWaveHeight holding x and z fixed;
both are pure functions of their arguments. -/
theorem surfaceVelY_is_deriv_of_waveHeight (freq amp x z t : ℝ) :
    HasDerivAt (fun s : ℝ => getWaveHeight freq amp x z s)
      (getSurfaceVelY freq amp x z t) t := by
  have h1 : HasDerivAt (fun s : ℝ => freq * 0.1 * s) (freq * 0.1) t := by
    simpa using (hasDerivAt_id t).const_mul (freq * 0.1)
  have h2 : HasDerivAt (fun s : ℝ => Real.cos (freq * 0.1 * s))
      (-Real.sin (freq * 0.1 * t) * (freq * 0.1)) t := h1.cos
  have h3 : HasDerivAt (fun s : ℝ => getWaveHeight freq amp x z s)
      (amp * Real.cos (0.2 * x) * Real.cos (0.2 * z)
        * (-Real.sin (freq * 0.1 * t) * (freq * 0.1))) t :=
    h2.const_mul (amp * Real.cos (0.2 * x) * Real.cos (0.2 * z))
  have heq : getSurfaceVelY freq amp x z t
      = amp * Real.cos (0.2 * x) * Real.cos (0.2 * z)
        * (-Real.sin (freq * 0.1 * t) * (freq * 0.1)) := by
    unfold getSurfaceVelY; ring
  rw [heq]
  exact h3

/-- The floor-kill check ending Droplet3D.update (script.js line 66): if
position.y < -50, set isDead. -/
noncomputable def Droplet3D.killIfBelowFloor (d : Droplet3D ℝ) : Droplet3D ℝ :=
  if d.position.y < -50 then { d with isDead := true } else d

/-- Droplet3D.update (script.js 39–67): gravity force, quadratic air drag
(applied when the squared speed exceeds 0.0001, with drag magnitude
airResistance * speedSq along -velocity/|velocity|), Euler step
velocity += (force/mass) * dt and position += velocity * (dt * 10), the
surface-collision test position.y - radius <= surfaceY, and finally the
floor-kill check at y < -50.  The mesh position copy is rendering-only
and omitted. -/
noncomputable def Droplet3D.update (d : Droplet3D ℝ)
    (deltaTime gravity airResistance surfaceY surfaceVelY time : ℝ) : Droplet3D ℝ :=
  let gravityForceY := -d.mass * gravity
  let speedSq := d.velocity.x * d.velocity.x + d.velocity.y * d.velocity.y
    + d.velocity.z * d.velocity.z
  let force : Vec3 ℝ :=
    if speedSq > 0.0001 then
      let dragMag := airResistance * speedSq
      let len := Real.sqrt speedSq
      ⟨-(d.velocity.x / len) * dragMag,
       gravityForceY + -(d.velocity.y / len) * dragMag,
       -(d.velocity.z / len) * dragMag⟩
    else ⟨0, gravityForceY, 0⟩
  let acceleration : Vec3 ℝ := ⟨force.x / d.mass, force.y / d.mass, force.z / d.mass⟩
  let velocity : Vec3 ℝ :=
    ⟨d.velocity.x + acceleration.x * deltaTime,
     d.velocity.y + acceleration.y * deltaTime,
     d.velocity.z + acceleration.z * deltaTime⟩
  let position : Vec3 ℝ :=
    ⟨d.position.x + velocity.x * (deltaTime * 10),
     d.position.y + velocity.y * (deltaTime * 10),
     d.position.z + velocity.z * (deltaTime * 10)⟩
  let moved : Droplet3D ℝ := { d with velocity := velocity, position := position }
  let collided :=
    if position.y - d.radius ≤ surfaceY
    then moved.handleSurfaceCollision surfaceY surfaceVelY time
    else moved
  collided.killIfBelowFloor

/-- The kill check reports dead whenever the position it leaves behind is
below the floor. -/
lemma killIfBelowFloor_spec (d : Droplet3D ℝ)
    (h : d.killIfBelowFloor.position.y < -50) :
    d.killIfBelowFloor.isDead = true := by
  unfold Droplet3D.killIfBelowFloor at h ⊢
  by_cases hc : d.position.y < -50
  · rw [if_pos hc]
  · rw [if_neg hc] at h
    exact absurd h hc

/-- Droplet used in the C8 counterexample: resting just below the floor
threshold over a flat surface at height 0. -/
noncomputable def belowFloorDroplet : Droplet3D ℝ :=
  { position := ⟨0, -51, 0⟩, velocity := ⟨0, 0, 0⟩, mass := 5, radius := 0.8,
    isDead := false, lastBounceTime := 0 }

/-- C8 counterexample: a droplet whose position.y is set to -51 (below the
floor threshold -50) survives the next update — the slow impact against
the flat surface at 0 bounces it back up to y = 0.8, and the floor check
runs only on the final position. -/
theorem below_floor_survives_update :
    belowFloorDroplet.position.y < -50
      ∧ (belowFloorDroplet.update 0.016 9.8 0.02 0 0 0).isDead = false := by
  constructor
  · show (-51 : ℝ) < -50
    norm_num
  · norm_num [Droplet3D.update, Droplet3D.handleSurfaceCollision,
      Droplet3D.killIfBelowFloor, belowFloorDroplet, abs_of_nonneg, abs_of_nonpos]

/-- C8 amended: whenever the position at the end of an update (after
integration and collision handling) is below the floor threshold -50, the
update marks the droplet dead, whatever the collision branch did. -/
theorem floor_kill_final_position (d : Droplet3D ℝ)
    (dt g c sY sVy t : ℝ)
    (h : (d.update dt g c sY sVy t).position.y < -50) :
    (d.update dt g c sY sVy t).isDead = true := by
  unfold Droplet3D.update at h ⊢
  exact killIfBelowFloor_spec _ h

/-- Droplet for the C8 amended witness: far below the floor with the
surface even further down, so no collision interferes. -/
noncomputable def deepFallDroplet : Droplet3D ℝ :=
  { position := ⟨0, -100, 0⟩, velocity := ⟨0, 0, 0⟩, mass := 5, radius := 0.8,
    isDead := false, lastBounceTime := 0 }

/-- Witness for C8 amended: an update that ends at y below -50 (surface at
-200, no collision) marks the droplet dead. -/
theorem floor_kill_final_position_witness :
    (deepFallDroplet.update 0.016 9.8 0.02 (-200) 0 0).isDead = true :=
  floor_kill_final_position deepFallDroplet 0.016 9.8 0.02 (-200) 0 0
    (by norm_num [Droplet3D.update, Droplet3D.handleSurfaceCollision,
      Droplet3D.killIfBelowFloor, deepFallDroplet, abs_of_nonneg, abs_of_nonpos])

/-- One droplet entry of a history snapshot (recordFrame, script.js
307–312): cloned position, radius and dead flag. -/
structure DropSnap where
  pos : Vec3 ℝ
  radius : ℝ
  dead : Bool

/-- One history frame (script.js 307–314): droplet snapshots plus the
waterTime tag used to re-evaluate the wave field. -/
structure Frame where
  droplets : List DropSnap
  waterTime : ℝ

/-- Core state of the SimulatorAdvanced class (script.js 118–162): the
droplet collection, run flag, simulation time, physics and vibration
parameters, the history buffer and the replay cursor/flag.  Scene,
camera, renderer, meshes and DOM handles are rendering-only and omitted;
the replay pool display is modelled by the displayed field, holding the
frame renderReplay last showed. -/
structure SimulatorAdvanced where
  droplets : List (Droplet3D ℝ)
  isRunning : Bool
  time : ℝ
  gravity : ℝ
  mass : ℝ
  airResistance : ℝ
  dropletSize : ℝ
  freq : ℝ
  amp : ℝ
  history : List Frame
  isReplaying : Bool
  replayFrame : ℤ
  displayed : Option Frame

/-- MAX_HISTORY = 60 * 20, twenty seconds at 60 fps (script.js 157). -/
def MAX_HISTORY : ℕ := 60 * 20

/-- The constructor state of SimulatorAdvanced (script.js 136–157): empty
droplet collection and history, paused, time 0, default parameters. -/
noncomputable def initSim : SimulatorAdvanced :=
  { droplets := [], isRunning := false, time := 0, gravity := 9.8, mass := 5,
    airResistance := 0.02, dropletSize := 8, freq := 30, amp := 0.5,
    history := [], isReplaying := false, replayFrame := 0, displayed := none }

/-- SimulatorAdvanced.recordFrame (script.js 301–320): shift the oldest
frame when the buffer length strictly exceeds MAX_HISTORY, then push a
snapshot of the current droplets and time.  The replay slider updates are
DOM-only and omitted. -/
noncomputable def SimulatorAdvanced.recordFrame (s : SimulatorAdvanced) : SimulatorAdvanced :=
  let hist := if MAX_HISTORY < s.history.length then s.history.drop 1 else s.history
  let frame : Frame :=
    ⟨s.droplets.map (fun d => ⟨d.position, d.radius, d.isDead⟩), s.time⟩
  { s with history := hist ++ [frame] }

/-- JavaScript array read history[i]: the frame when 0 ≤ i < length, and
undefined (none) otherwise. -/
def frameAt (h : List Frame) (i : ℤ) : Option Frame :=
  if 0 ≤ i then h.get? i.toNat else none

/-- The replaySlider input handler (script.js 225–229): while replaying,
store the parsed slider value as the replay cursor — no clamping is
performed; otherwise no effect. -/
def SimulatorAdvanced.scrub (s : SimulatorAdvanced) (i : ℤ) : SimulatorAdvanced :=
  if s.isReplaying then { s with replayFrame := i } else s

/-- SimulatorAdvanced.startReplay (script.js 322–339): toggle the replay
flag, run the sim exactly when not replaying, and on entering replay set
the cursor to the last frame index.  Button text and timeline styling are
DOM-only and omitted. -/
def SimulatorAdvanced.startReplay (s : SimulatorAdvanced) : SimulatorAdvanced :=
  let replaying := !s.isReplaying
  let s1 := { s with isReplaying := replaying, isRunning := !replaying }
  if replaying then { s1 with replayFrame := (s.history.length : ℤ) - 1 } else s1

/-- SimulatorAdvanced.renderReplay (script.js 341–377): look up the frame
at the cursor; if it is missing (out-of-bounds cursor) return at once,
otherwise display that frame.  Water-mesh sync and droplet-mesh pooling
are rendering-only, modelled by the displayed field. -/
def SimulatorAdvanced.renderReplay (s : SimulatorAdvanced) : SimulatorAdvanced :=
  match frameAt s.history s.replayFrame with
  | none => s
  | some f => { s with displayed := some f }

/-- Live-mode physics step of SimulatorAdvanced.animate (script.js
395–420): advance time by dt * (freq / 30) with dt = 0.016, update every
droplet against the wave surface sampled at its (x, z), drop the droplets
that died, then record a history frame.  The elapsed-time display is
DOM-only and omitted. -/
noncomputable def SimulatorAdvanced.tick (s : SimulatorAdvanced) : SimulatorAdvanced :=
  let dt : ℝ := 0.016
  let time := s.time + dt * (s.freq / 30)
  let updated := s.droplets.map fun d =>
    d.update dt s.gravity s.airResistance
      (getWaveHeight s.freq s.amp d.position.x d.position.z time)
      (getSurfaceVelY s.freq s.amp d.position.x d.position.z time) time
  let alive := updated.filter fun d => !d.isDead
  SimulatorAdvanced.recordFrame { s with time := time, droplets := alive }

/-- One cycle of SimulatorAdvanced.animate (script.js 379–428): the replay
branch renders the replay frame; otherwise a running sim performs a
physics tick; a paused, non-replaying sim leaves the core state alone. -/
noncomputable def SimulatorAdvanced.animate (s : SimulatorAdvanced) : SimulatorAdvanced :=
  if s.isReplaying then s.renderReplay
  else if s.isRunning then s.tick
  else s

/-- Length evolution of one recordFrame: the buffer grows by one unless it
was already strictly longer than MAX_HISTORY, in which case the shift and
the push cancel out. -/
lemma recordFrame_history_length (s : SimulatorAdvanced) :
    s.recordFrame.history.length
      = if MAX_HISTORY < s.history.length
        then s.history.length else s.history.length + 1 := by
  simp only [SimulatorAdvanced.recordFrame]
  split
  · next h =>
      simp only [List.length_append, List.length_drop, List.length_singleton]
      omega
  · simp

/-- From the empty constructor state, n appends leave exactly n frames for
every n up to MAX_HISTORY + 1: the eviction never fires on the way up. -/
lemma recordFrame_iter_length (n : ℕ) (hn : n ≤ MAX_HISTORY + 1) :
    ((SimulatorAdvanced.recordFrame)^[n] initSim).history.length = n := by
  induction n with
  | zero => rfl
  | succ k ih =>
      have hk : k ≤ MAX_HISTORY + 1 := Nat.le_of_succ_le hn
      rw [Function.iterate_succ_apply', recordFrame_history_length, ih hk]
      have hlt : ¬ MAX_HISTORY < k := by omega
      rw [if_neg hlt]

/-- C1: the history bound is violated.  After MAX_HISTORY + 1 consecutive
recordFrame appends from the constructor state the buffer holds
MAX_HISTORY + 1 frames: the shift fires only when the length already
strictly exceeds MAX_HISTORY, so the buffer stabilises one frame over the
configured maximum instead of evicting before insert at the maximum. -/
theorem history_length_exceeds_max :
    ((SimulatorAdvanced.recordFrame)^[MAX_HISTORY + 1] initSim).history.length
        = MAX_HISTORY + 1
      ∧ MAX_HISTORY
        < ((SimulatorAdvanced.recordFrame)^[MAX_HISTORY + 1] initSim).history.length := by
  have h := recordFrame_iter_length (MAX_HISTORY + 1) (le_refl _)
  exact ⟨h, by rw [h]; omega⟩

/-- A frame with no droplets at water time 0. -/
def emptyFrame : Frame := ⟨[], 0⟩

/-- A replaying simulator holding a single history frame with the cursor
on it. -/
noncomputable def replayingSim : SimulatorAdvanced :=
  { initSim with
    isReplaying := true, isRunning := false,
    history := [emptyFrame], replayFrame := 0 }

/-- C2 counterexample: scrubbing to index 5 while replaying over a
one-frame history stores cursor 5 verbatim — a clamped cursor would be 0
— and the stored cursor identifies no existing frame. -/
theorem scrub_does_not_clamp :
    (replayingSim.scrub 5).replayFrame = 5
      ∧ frameAt (replayingSim.scrub 5).history (replayingSim.scrub 5).replayFrame
          = none := by
  constructor
  · rfl
  · rfl

/-- renderReplay never changes the droplet collection, the simulation
time, the history buffer, the mode flags or the cursor: both of its
branches only touch the displayed frame. -/
lemma renderReplay_preserves_core (s : SimulatorAdvanced) :
    s.renderReplay.droplets = s.droplets ∧ s.renderReplay.time = s.time
      ∧ s.renderReplay.history = s.history
      ∧ s.renderReplay.isReplaying = s.isReplaying
      ∧ s.renderReplay.isRunning = s.isRunning
      ∧ s.renderReplay.replayFrame = s.replayFrame := by
  unfold SimulatorAdvanced.renderReplay
  cases frameAt s.history s.replayFrame <;>
    exact ⟨rfl, rfl, rfl, rfl, rfl, rfl⟩

/-- scrub only ever touches the replay cursor. -/
lemma scrub_preserves_core (s : SimulatorAdvanced) (i : ℤ) :
    (s.scrub i).droplets = s.droplets ∧ (s.scrub i).time = s.time
      ∧ (s.scrub i).history = s.history
      ∧ (s.scrub i).isReplaying = s.isReplaying
      ∧ (s.scrub i).isRunning = s.isRunning := by
  unfold SimulatorAdvanced.scrub
  split <;> exact ⟨rfl, rfl, rfl, rfl, rfl⟩

/-- While replaying, scrub stores exactly the requested index. -/
lemma scrub_sets_cursor (s : SimulatorAdvanced) (i : ℤ)
    (h : s.isReplaying = true) : (s.scrub i).replayFrame = i := by
  unfold SimulatorAdvanced.scrub
  rw [h]
  rfl

/-- C2 amended: a scrub while replaying stores the requested index with no
clamping, so the cursor may lie outside the buffer; the following render
never fails — whatever the index, renderReplay leaves the droplets, the
history buffer and the simulation time unchanged (out-of-range cursors
make it a guarded no-op rather than an error). -/
theorem scrub_unclamped_render_safe (s : SimulatorAdvanced) (i : ℤ)
    (h : s.isReplaying = true) :
    (s.scrub i).replayFrame = i
      ∧ (s.scrub i).renderReplay.droplets = s.droplets
      ∧ (s.scrub i).renderReplay.history = s.history
      ∧ (s.scrub i).renderReplay.time = s.time := by
  obtain ⟨rd, rt, rh, _, _, _⟩ := renderReplay_preserves_core (s.scrub i)
  obtain ⟨sd, st, sh, _, _⟩ := scrub_preserves_core s i
  exact ⟨scrub_sets_cursor s i h, rd.trans sd, rh.trans sh, rt.trans st⟩

/-- Witness for C2 amended at the concrete replaying state and the
out-of-range index 99. -/
theorem scrub_unclamped_render_safe_witness :
    (replayingSim.scrub 99).replayFrame = 99
      ∧ (replayingSim.scrub 99).renderReplay.droplets = replayingSim.droplets
      ∧ (replayingSim.scrub 99).renderReplay.history = replayingSim.history
      ∧ (replayingSim.scrub 99).renderReplay.time = replayingSim.time :=
  scrub_unclamped_render_safe replayingSim 99 rfl

/-- C10: in replay mode, when the cursor lies outside [0, history length),
renderReplay is the identity on the simulator state: it returns without
crash and mutates neither the history buffer, nor the droplets, nor the
simulation time. -/
theorem renderReplay_out_of_bounds_noop (s : SimulatorAdvanced)
    (hmode : s.isReplaying = true)
    (h : s.replayFrame < 0 ∨ (s.history.length : ℤ) ≤ s.replayFrame) :
    s.renderReplay = s := by
  have hnone : frameAt s.history s.replayFrame = none := by
    unfold frameAt
    rcases h with h | h
    · rw [if_neg (not_le.mpr h)]
    · have h0 : (0 : ℤ) ≤ s.replayFrame := le_trans (Int.ofNat_nonneg _) h
      rw [if_pos h0]
      exact List.get?_eq_none.mpr (by omega)
  unfold SimulatorAdvanced.renderReplay
  rw [hnone]

/-- A replaying simulator whose cursor 7 points past its one-frame
history. -/
noncomputable def oobCursorSim : SimulatorAdvanced :=
  { initSim with
    isReplaying := true, isRunning := false,
    history := [emptyFrame], replayFrame := 7 }

/-- Witness for C10 at cursor 7 over a one-frame history. -/
theorem renderReplay_out_of_bounds_noop_witness :
    oobCursorSim.renderReplay = oobCursorSim :=
  renderReplay_out_of_bounds_noop oobCursorSim rfl (Or.inr (by norm_num [oobCursorSim, initSim]))

/-- startReplay never touches the droplet collection, the simulation time
or the history buffer, whichever direction it toggles. -/
lemma startReplay_preserves_core (s : SimulatorAdvanced) :
    s.startReplay.droplets = s.droplets ∧ s.startReplay.time = s.time
      ∧ s.startReplay.history = s.history := by
  simp only [SimulatorAdvanced.startReplay]
  split <;> exact ⟨rfl, rfl, rfl⟩

/-- Toggling replay from live mode enters replay mode. -/
lemma startReplay_enters_replay (s : SimulatorAdvanced)
    (h : s.isReplaying = false) : s.startReplay.isReplaying = true := by
  simp only [SimulatorAdvanced.startReplay, h]
  rfl

/-- While replaying, an animation cycle is exactly the replay render. -/
lemma animate_replaying (s : SimulatorAdvanced) (h : s.isReplaying = true) :
    s.animate = s.renderReplay := by
  unfold SimulatorAdvanced.animate
  rw [h]
  rfl

/-- One replay interaction — a scrub followed by an animation cycle —
keeps the simulator in replay mode and leaves droplets, time and history
alone. -/
lemma replay_step_preserves_core (st : SimulatorAdvanced) (i : ℤ)
    (h : st.isReplaying = true) :
    ((st.scrub i).animate).isReplaying = true
      ∧ ((st.scrub i).animate).droplets = st.droplets
      ∧ ((st.scrub i).animate).time = st.time
      ∧ ((st.scrub i).animate).history = st.history := by
  obtain ⟨sd, stm, sh, sr, _⟩ := scrub_preserves_core st i
  have hrep : (st.scrub i).isReplaying = true := sr.trans h
  rw [animate_replaying (st.scrub i) hrep]
  obtain ⟨rd, rt, rh, rr, _, _⟩ := renderReplay_preserves_core (st.scrub i)
  exact ⟨rr.trans hrep, rd.trans sd, rt.trans stm, rh.trans sh⟩

/-- Folding any sequence of scrub-and-render interactions over a replaying
simulator stays in replay mode and preserves droplets, time and
history. -/
lemma replay_fold_preserves_core (cmds : List ℤ) :
    ∀ st : SimulatorAdvanced, st.isReplaying = true →
      (cmds.foldl (fun s2 i => (s2.scrub i).animate) st).isReplaying = true
        ∧ (cmds.foldl (fun s2 i => (s2.scrub i).animate) st).droplets = st.droplets
        ∧ (cmds.foldl (fun s2 i => (s2.scrub i).animate) st).time = st.time
        ∧ (cmds.foldl (fun s2 i => (s2.scrub i).animate) st).history = st.history := by
  induction cmds with
  | nil => exact fun st h => ⟨h, rfl, rfl, rfl⟩
  | cons c cs ih =>
      intro st h
      simp only [List.foldl_cons]
      obtain ⟨h1, h2, h3, h4⟩ := replay_step_preserves_core st c h
      obtain ⟨g1, g2, g3, g4⟩ := ih ((st.scrub c).animate) h1
      exact ⟨g1, g2.trans h2, g3.trans h3, g4.trans h4⟩

/-- A full replay session: toggle into replay, run any sequence of scrub
commands each followed by an animation cycle, then toggle back to
live. -/
noncomputable def replaySession (s : SimulatorAdvanced) (cmds : List ℤ) :
    SimulatorAdvanced :=
  (cmds.foldl (fun s2 i => (s2.scrub i).animate) s.startReplay).startReplay

/-- C6: entering replay from live mode, scrubbing and rendering any number
of times, then toggling back to live leaves the droplet collection, the
simulation time and the history buffer exactly as they were when replay
was entered: replay neither appends to nor mutates the history. -/
theorem replay_session_preserves_state (s : SimulatorAdvanced) (cmds : List ℤ)
    (h : s.isReplaying = false) :
    (replaySession s cmds).droplets = s.droplets
      ∧ (replaySession s cmds).time = s.time
      ∧ (replaySession s cmds).history = s.history := by
  unfold replaySession
  obtain ⟨a1, a2, a3⟩ := startReplay_preserves_core s
  obtain ⟨f1, f2, f3, f4⟩ :=
    replay_fold_preserves_core cmds s.startReplay (startReplay_enters_replay s h)
  obtain ⟨b1, b2, b3⟩ :=
    startReplay_preserves_core
      (cmds.foldl (fun s2 i => (s2.scrub i).animate) s.startReplay)
  exact ⟨b1.trans (f2.trans a1), b2.trans (f3.trans a2), b3.trans (f4.trans a3)⟩

/-- Witness for C6: a session over the constructor state scrubbing to 0
and then to 5 restores droplets, time and history exactly. -/
theorem replay_session_preserves_state_witness :
    (replaySession initSim [0, 5]).droplets = initSim.droplets
      ∧ (replaySession initSim [0, 5]).time = initSim.time
      ∧ (replaySession initSim [0, 5]).history = initSim.history :=
  replay_session_preserves_state initSim [0, 5] rfl

/-- A JavaScript number as parseFloat can produce it: a finite value, NaN,
or a signed infinity. -/
inductive JSNum where
  | num : ℚ → JSNum
  | nan : JSNum
  | inf : JSNum
  | ninf : JSNum
deriving DecidableEq

/-- Whether a JSNum is finite. -/
def JSNum.isFinite : JSNum → Bool
  | .num _ => true
  | _ => false

/-- The slider-settable physics fields of SimulatorAdvanced (script.js
210–214). -/
inductive ConfigField where
  | gravity
  | mass
  | airResistance
  | freq
  | amp
deriving DecidableEq

/-- The configuration values those fields hold, as JavaScript numbers. -/
structure Config where
  gravity : JSNum
  mass : JSNum
  airResistance : JSNum
  freq : JSNum
  amp : JSNum
deriving DecidableEq

/-- The constructor values of the slider-settable fields (script.js
144–151). -/
def initConfig : Config :=
  { gravity := .num 9.8, mass := .num 5, airResistance := .num 0.02,
    freq := .num 30, amp := .num 0.5 }

/-- The bindSlider input handler (script.js 204–214): assign the parsed
slider value to the named field unconditionally — the source performs no
finiteness or positivity check before the assignment.  The display-text
update is DOM-only and omitted. -/
def setConfig (c : Config) (f : ConfigField) (v : JSNum) : Config :=
  match f with
  | .gravity => { c with gravity := v }
  | .mass => { c with mass := v }
  | .airResistance => { c with airResistance := v }
  | .freq => { c with freq := v }
  | .amp => { c with amp := v }

/-- C3 fails on the code: setting mass to NaN stores NaN instead of
keeping the prior value, and a non-positive mass 0 is stored as well —
the configuration path performs no rejection, so a non-finite value does
propagate into the integrator state. -/
theorem setConfig_accepts_nonfinite :
    (setConfig initConfig ConfigField.mass JSNum.nan).mass = JSNum.nan
      ∧ (setConfig initConfig ConfigField.mass JSNum.nan).mass ≠ initConfig.mass
      ∧ (setConfig initConfig ConfigField.mass (JSNum.num 0)).mass = JSNum.num 0
      ∧ ((setConfig initConfig ConfigField.mass JSNum.nan).mass).isFinite = false := by
  refine ⟨rfl, ?_, rfl, rfl⟩
  intro h
  exact JSNum.noConfusion h
